import Mathlib

/-!
Verification of the embed-block logic of the repository
(src/blocks/library/embed/index.js) against its natural-language
specification.  The JavaScript source is shallowly embedded below:
pure functions become Lean functions, the component lifecycle and its
side effects (setState, setAttributes, onReplace) become explicit
effect lists, and the external collaborators that the spec excludes
(lodash, the node url package, the element renderer) are modelled on
the exact inputs this code feeds them, with a comment at each model.
-/

namespace Embed

/-! ### Regular expressions

The source tests URLs with JavaScript regexes built from authored
pattern strings: url.match(new RegExp(pattern, "i")) (source lines
36-40).  We embed the authored patterns as an explicit syntax tree and
decide matching with Brzozowski derivatives.  The "i" flag is modelled
by lower-casing the URL characters: every authored pattern is written
with lower-case ASCII letters only.  JavaScript match without a leading
caret finds the pattern anywhere in the string; a leading caret anchors
it to the start.  Both are reduced to whole-string matching by padding
with an any-character star.
-/

inductive Regex where
  | emp
  | eps
  | chr (c : Char)
  | anyc
  | alt (r s : Regex)
  | cat (r s : Regex)
  | star (r : Regex)
deriving DecidableEq

def Regex.nullable : Regex → Bool
  | .emp => false
  | .eps => true
  | .chr _ => false
  | .anyc => false
  | .alt r s => r.nullable || s.nullable
  | .cat r s => r.nullable && s.nullable
  | .star _ => true

/-- Smart alternation: drops the empty language and duplicate branches,
keeping derivative terms small so that concrete matching evaluates. -/
def Regex.mkAlt : Regex → Regex → Regex
  | .emp, s => s
  | r, .emp => r
  | r, s => if r = s then r else .alt r s

/-- Smart concatenation: absorbs the empty language and the empty string. -/
def Regex.mkCat : Regex → Regex → Regex
  | .emp, _ => .emp
  | _, .emp => .emp
  | .eps, s => s
  | r, .eps => r
  | r, s => .cat r s

def Regex.deriv : Regex → Char → Regex
  | .emp, _ => .emp
  | .eps, _ => .emp
  | .chr c, a => if a = c then .eps else .emp
  | .anyc, _ => .eps
  | .alt r s, a => mkAlt (r.deriv a) (s.deriv a)
  | .cat r s, a =>
    if r.nullable then mkAlt (mkCat (r.deriv a) s) (s.deriv a)
    else mkCat (r.deriv a) s
  | .star r, a => mkCat (r.deriv a) (.star r)

/-- Whole-list matching by iterated derivatives. -/
def Regex.matchList (r : Regex) (cs : List Char) : Bool :=
  (cs.foldl Regex.deriv r).nullable

/-- An authored pattern: its regex body together with whether the
authored string began with a caret (anchored at the string start). -/
structure Pattern where
  anchored : Bool
  re : Regex
deriving DecidableEq

/-- ASCII lower-casing of one character, the effect of the "i" regex
flag on the lower-case-ASCII authored patterns. -/
def lowerChar (c : Char) : Char :=
  if 65 ≤ c.toNat && c.toNat ≤ 90 then Char.ofNat (c.toNat + 32) else c

/-- url.match(new RegExp(pattern, "i")) viewed as a Bool (source line 38). -/
def testPattern (url : String) (p : Pattern) : Bool :=
  let padded :=
    if p.anchored then Regex.cat p.re (Regex.star Regex.anyc)
    else Regex.cat (Regex.star Regex.anyc) (Regex.cat p.re (Regex.star Regex.anyc))
  padded.matchList (url.data.map lowerChar)

/-- matchesPatterns (source lines 36-40): some pattern matches the URL. -/
def matchesPatterns (url : String) (patterns : List Pattern) : Bool :=
  patterns.any fun p => testPattern url p

/-- findBlock (source lines 42-49): scan the registry in insertion
order, return the first identifier whose pattern list matches, and
fall back to the generic identifier. -/
def findBlock (registry : List (String × List Pattern)) (url : String) : String :=
  match registry with
  | [] => "core/embed"
  | (blockName, pats) :: rest =>
    if matchesPatterns url pats then blockName else findBlock rest url

/-! ### Pattern combinators used to transcribe the authored regex strings -/

/-- A literal character sequence (every character matched verbatim). -/
def rlit (s : String) : Regex :=
  s.data.foldr (fun c r => Regex.cat (Regex.chr c) r) Regex.eps

/-- A question mark on a group or character. -/
def ropt (r : Regex) : Regex := Regex.alt r Regex.eps

/-- The authored ".+": one or more arbitrary characters (the lazy
".+?" variant accepts the same set of strings). -/
def anyPlus : Regex := Regex.cat Regex.anyc (Regex.star Regex.anyc)

def rall : List Regex → Regex
  | [] => Regex.eps
  | [r] => r
  | r :: rest => Regex.cat r (rall rest)

/-- The authored leading "https?://" with its escaped slashes. -/
def httpS : Regex := rall [rlit "http", ropt (Regex.chr 's'), rlit "://"]

/-- The recurring authored shape "^https?://(www\.)?HOST/.+". -/
def stdPat (host : String) : Pattern :=
  ⟨true, rall [httpS, ropt (rlit "www."), rlit host, rlit "/", anyPlus]⟩

/-! ### The registered embed block definitions (source lines 305-613)

Each pattern below transcribes one authored regex string; the original
string is quoted in the comment.  An escaped dot is a literal dot, an
unescaped dot is an arbitrary character.
-/

structure EmbedBlockOptions where
  name : String
  title : String
  patterns : List Pattern

-- "^https?:\/\/(www\.)?twitter\.com\/.+"
def twitterPattern : Pattern := stdPat "twitter.com"

-- "^https?:\/\/((m|www)\.)?youtube\.com\/.+"
def youtubePattern1 : Pattern :=
  ⟨true, rall [httpS, ropt (Regex.cat (Regex.alt (rlit "m") (rlit "www")) (Regex.chr '.')),
    rlit "youtube.com", rlit "/", anyPlus]⟩

-- "youtu\.be\/.+"  (no caret: matches anywhere in the URL)
def youtubePattern2 : Pattern := ⟨false, rall [rlit "youtu.be/", anyPlus]⟩

-- "^https?:\/\/www\.facebook.com\/.+"  (the dot before "com" is unescaped)
def facebookPattern : Pattern :=
  ⟨true, rall [httpS, rlit "www.facebook", Regex.anyc, rlit "com", rlit "/", anyPlus]⟩

-- "^https?:\/\/(www\.)?instagr(\.am|am\.com)/.+"
def instagramPattern : Pattern :=
  ⟨true, rall [httpS, ropt (rlit "www."), rlit "instagr",
    Regex.alt (rlit ".am") (rlit "am.com"), rlit "/", anyPlus]⟩

-- "^https?:\/\/(open|play)\.spotify\.com\/.+"
def spotifyPattern : Pattern :=
  ⟨true, rall [httpS, Regex.alt (rlit "open") (rlit "play"), rlit ".spotify.com", rlit "/", anyPlus]⟩

-- "flic\.kr/.+"  (no caret)
def flickrPattern2 : Pattern := ⟨false, rall [rlit "flic.kr/", anyPlus]⟩

-- "^https?:\/\/(www\.)?(animoto|video214)\.com\/.+"
def animotoPattern : Pattern :=
  ⟨true, rall [httpS, ropt (rlit "www."), Regex.alt (rlit "animoto") (rlit "video214"),
    rlit ".com", rlit "/", anyPlus]⟩

-- "^https?:\/\/cloudup\.com\/.+"  (no optional www group)
def cloudupPattern : Pattern := ⟨true, rall [httpS, rlit "cloudup.com", rlit "/", anyPlus]⟩

-- "(www\.)?funnyordie\.com\/.+"  (no caret)
def funnyordiePattern : Pattern :=
  ⟨false, rall [ropt (rlit "www."), rlit "funnyordie.com", rlit "/", anyPlus]⟩

-- "^https?:\/\/(.+\.)?imgur\.com\/.+"
def imgurPattern : Pattern :=
  ⟨true, rall [httpS, ropt (Regex.cat anyPlus (Regex.chr '.')), rlit "imgur.com", rlit "/", anyPlus]⟩

-- "^https?:\/\/kck\.st/.+"
def kickstarterPattern2 : Pattern := ⟨true, rall [httpS, rlit "kck.st/", anyPlus]⟩

-- "^https?:\/\/(www\.)?meetu(\.ps|p\.com)\/.+"
def meetupPattern : Pattern :=
  ⟨true, rall [httpS, ropt (rlit "www."), rlit "meetu",
    Regex.alt (rlit ".ps") (rlit "p.com"), rlit "/", anyPlus]⟩

-- "^http:\/\/g?i*\.photobucket\.com\/.+"  (plain http, optional g, any number of i)
def photobucketPattern : Pattern :=
  ⟨true, rall [rlit "http://", ropt (Regex.chr 'g'), Regex.star (Regex.chr 'i'),
    rlit ".photobucket.com", rlit "/", anyPlus]⟩

-- "^https?:\/\/(.+?\.)?slideshare\.net\/.+"
def slidesharePattern : Pattern :=
  ⟨true, rall [httpS, ropt (Regex.cat anyPlus (Regex.chr '.')), rlit "slideshare.net", rlit "/", anyPlus]⟩

-- "^https?:\/\/(www\.|embed\.)?ted\.com\/.+"
def tedPattern : Pattern :=
  ⟨true, rall [httpS, ropt (Regex.alt (rlit "www.") (rlit "embed.")), rlit "ted.com", rlit "/", anyPlus]⟩

-- "^https?:\/\/videopress\.com\/.+"
def videopressPattern : Pattern := ⟨true, rall [httpS, rlit "videopress.com", rlit "/", anyPlus]⟩

-- "^https?:\/\/wordpress\.tv\/.+"
def wordpressTvPattern : Pattern := ⟨true, rall [httpS, rlit "wordpress.tv", rlit "/", anyPlus]⟩

/-- The common embed definitions, in source order (lines 336-416).  The
WordPress definition has no patterns field (modelled as the empty list,
exactly the case the registration guard skips). -/
def commonEmbeds : List EmbedBlockOptions := [
  ⟨"core-embed/twitter", "Twitter", [twitterPattern]⟩,
  ⟨"core-embed/youtube", "YouTube", [youtubePattern1, youtubePattern2]⟩,
  ⟨"core-embed/facebook", "Facebook", [facebookPattern]⟩,
  ⟨"core-embed/instagram", "Instagram", [instagramPattern]⟩,
  ⟨"core-embed/wordpress", "WordPress", []⟩,
  ⟨"core-embed/soundcloud", "SoundCloud", [stdPat "soundcloud.com"]⟩,
  ⟨"core-embed/spotify", "Spotify", [spotifyPattern]⟩,
  ⟨"core-embed/flickr", "Flickr", [stdPat "flickr.com", flickrPattern2]⟩,
  ⟨"core-embed/vimeo", "Vimeo", [stdPat "vimeo.com"]⟩]

/-- The remaining embed definitions, in source order (lines 418-613).
The polldaddy entry repeats the mixcloud pattern exactly as authored. -/
def otherEmbeds : List EmbedBlockOptions := [
  ⟨"core-embed/animoto", "Animoto", [animotoPattern]⟩,
  ⟨"core-embed/cloudup", "Cloudup", [cloudupPattern]⟩,
  ⟨"core-embed/collegehumor", "CollegeHumor", [stdPat "collegehumor.com"]⟩,
  ⟨"core-embed/dailymotion", "Dailymotion", [stdPat "dailymotion.com"]⟩,
  ⟨"core-embed/funnyordie", "Funny or Die", [funnyordiePattern]⟩,
  ⟨"core-embed/hulu", "Hulu", [stdPat "hulu.com"]⟩,
  ⟨"core-embed/imgur", "Imgur", [imgurPattern]⟩,
  ⟨"core-embed/issuu", "Issuu", [stdPat "issuu.com"]⟩,
  ⟨"core-embed/kickstarter", "Kickstarter", [stdPat "kickstarter.com", kickstarterPattern2]⟩,
  ⟨"core-embed/meetup-com", "Meetup.com", [meetupPattern]⟩,
  ⟨"core-embed/mixcloud", "Mixcloud", [stdPat "mixcloud.com"]⟩,
  ⟨"core-embed/photobucket", "Photobucket", [photobucketPattern]⟩,
  ⟨"core-embed/polldaddy", "Polldaddy", [stdPat "mixcloud.com"]⟩,
  ⟨"core-embed/reddit", "Reddit", [stdPat "reddit.com"]⟩,
  ⟨"core-embed/reverbnation", "ReverbNation", [stdPat "reverbnation.com"]⟩,
  ⟨"core-embed/screencast", "Screencast", [stdPat "screencast.com"]⟩,
  ⟨"core-embed/scribd", "Scribd", [stdPat "scribd.com"]⟩,
  ⟨"core-embed/slideshare", "Slideshare", [slidesharePattern]⟩,
  ⟨"core-embed/smugmug", "SmugMug", [stdPat "smugmug.com"]⟩,
  ⟨"core-embed/speaker", "Speaker", [stdPat "speakerdeck.com"]⟩,
  ⟨"core-embed/ted", "TED", [tedPattern]⟩,
  ⟨"core-embed/tumblr", "Tumblr", [stdPat "tumblr.com"]⟩,
  ⟨"core-embed/videopress", "VideoPress", [videopressPattern]⟩,
  ⟨"core-embed/wordpress-tv", "WordPress.tv", [wordpressTvPattern]⟩]

/-- getEmbedBlockDefinition registration step (source lines 325-334):
a definition contributes a registry entry exactly when its pattern
list is present and non-empty. -/
def registerBlocks (opts : List EmbedBlockOptions) : List (String × List Pattern) :=
  opts.filterMap fun o => if o.patterns.isEmpty then none else some (o.name, o.patterns)

/-- blockPatterns (source line 34) after module evaluation registers
the common and other definitions in order. -/
def blockPatterns : List (String × List Pattern) :=
  registerBlocks (commonEmbeds ++ otherEmbeds)

/-! ### External string helpers the continuation feeds its data to -/

/-- JavaScript truthiness of a possibly-absent string: false for
undefined and for the empty string. -/
def truthyStr : Option String → Bool
  | none => false
  | some s => !(s = "")

/-- Modelled from the external lodash toLower on the values this code
passes it: lodash converts undefined to the empty string and
lower-cases; the inputs here are ASCII provider names and titles. -/
def lowerStr (s : String) : String := String.mk (s.data.map lowerChar)

def isAsciiLowerAlpha (c : Char) : Bool := 97 ≤ c.toNat && c.toNat ≤ 122

def isAsciiDigit (c : Char) : Bool := 48 ≤ c.toNat && c.toNat ≤ 57

/-- Word splitting of the external lodash, restricted to the
lower-cased ASCII strings this code feeds it: maximal runs of letters
and maximal runs of digits are words, everything else separates.  The
fuel argument bounds the recursion by the input length. -/
def asciiWordsAux : Nat → List Char → List (List Char)
  | 0, _ => []
  | _, [] => []
  | fuel + 1, c :: cs =>
    if isAsciiLowerAlpha c then
      (c :: cs.takeWhile isAsciiLowerAlpha) :: asciiWordsAux fuel (cs.dropWhile isAsciiLowerAlpha)
    else if isAsciiDigit c then
      (c :: cs.takeWhile isAsciiDigit) :: asciiWordsAux fuel (cs.dropWhile isAsciiDigit)
    else asciiWordsAux fuel cs

/-- Modelled from the external lodash kebabCase on lower-cased ASCII
input: join the words with hyphens. -/
def kebabCase (s : String) : String :=
  String.intercalate "-" ((asciiWordsAux s.data.length s.data).map fun w => String.mk w)

/-- Substring occurrence on character lists (the external lodash
includes on strings). -/
def leadsWith : List Char → List Char → Bool
  | [], _ => true
  | _ :: _, [] => false
  | a :: as, b :: bs => a = b && leadsWith as bs

def containsSub (needle : List Char) : List Char → Bool
  | [] => needle.isEmpty
  | c :: cs => leadsWith needle (c :: cs) || containsSub needle cs

/-! ### The server response and the success continuation

The oEmbed proxy responds with a JSON object; the source reads the
fields html, result, type, provider_name, thumbnail_url and title,
each of which may be absent (source lines 151-187).
-/

structure OEmbedResponse where
  html : Option String
  result : Option String
  type : Option String
  provider_name : Option String
  thumbnail_url : Option String
  title : Option String
deriving DecidableEq

/-- const html = obj.html ? obj.html : obj.result (source line 158). -/
def responseHtml (obj : OEmbedResponse) : Option String :=
  if truthyStr obj.html then obj.html else obj.result

/-- The WordPress-embed marker string tested on the payload (source line 167). -/
def wpEmbedMarker : String := "class=\"wp-embedded-content\" data-secret"

/-- includes( html, marker ) of the external lodash: false on an absent
payload, substring containment otherwise (source line 167). -/
def containsMarker (html : Option String) : Bool :=
  match html with
  | none => false
  | some s => containsSub wpEmbedMarker.data s.data

/-- kebabCase( toLower( '' !== providerName ? providerName : title ) )
(source lines 163-164): the title is substituted only when the
provider_name field is present and equal to the empty string; an
absent field passes undefined through toLower, which yields the empty
string. -/
def providerSlug (provider_name : Option String) (title : String) : String :=
  let chosen : Option String := if provider_name = some "" then some title else provider_name
  kebabCase (lowerStr (chosen.getD ""))

/-- getPhotoHtml (source lines 121-126): the photo preview element
p > img with the thumbnail URL as src and the response title as alt,
serialized by the element package renderToString in the standard way. -/
def getPhotoHtml (photo : OEmbedResponse) : String :=
  "<p><img src=\"" ++ photo.thumbnail_url.getD "" ++ "\" alt=\"" ++
    photo.title.getD "" ++ "\" width=\"100%\"/></p>"

/-- The observable side effects of the edit component, in emission
order: the two setState payload shapes the continuations use, the
setAttributes payload, and the onReplace( createBlock( name, { url } ) )
call. -/
inductive Effect where
  | setStateHtml (html type providerNameSlug : String)
  | setAttrs (type providerNameSlug : String)
  | setFetchingFalse
  | setStateFailure
  | replaceBlock (blockName url : String)
deriving DecidableEq

/-- The shared tail of the success continuation (source lines 175-182):
store a truthy payload, otherwise synthesize the photo markup when the
type is photo, otherwise store nothing; then clear the fetching flag. -/
def tailEffects (html : Option String) (type providerNameSlug : String)
    (obj : OEmbedResponse) : List Effect :=
  (if truthyStr html then
    [Effect.setStateHtml (html.getD "") type providerNameSlug,
     Effect.setAttrs type providerNameSlug]
  else if type = "photo" then
    [Effect.setStateHtml (getPhotoHtml obj) type providerNameSlug,
     Effect.setAttrs type providerNameSlug]
  else []) ++ [Effect.setFetchingFalse]

/-- The success continuation of the fetch (source lines 153-183),
with the component props name and url, the block settings title and
the unmounting flag as explicit inputs. -/
def successContinuation (unmounting : Bool) (blockName url title : String)
    (obj : OEmbedResponse) : List Effect :=
  if unmounting then []
  else
    let html := responseHtml obj
    let type := obj.type.getD "rich"
    let providerNameSlug := providerSlug obj.provider_name title
    if containsMarker html then
      if blockName ≠ "core-embed/wordpress" then
        [Effect.replaceBlock "core-embed/wordpress" url]
      else
        tailEffects html "wp-embed" providerNameSlug obj
    else
      tailEffects html type providerNameSlug obj

/-- The rejection continuation of the fetch (source lines 184-186):
setState( { fetching: false, error: true } ).  The source does not
consult the unmounting flag here, which the parameter makes visible. -/
def failureContinuation (unmounting : Bool) : List Effect :=
  [Effect.setStateFailure]

/-- The outcome of the synchronous part of doServerSideRender before
the fetch is issued. -/
inductive PreFetchOutcome where
  | replace (blockName url : String)
  | fetch
deriving DecidableEq

/-- doServerSideRender before the fetch (source lines 128-150): when
the URL does not match the own patterns of the block, resolve a block
for it; replace self when this block is not the WordPress embed, the
resolved block is not the generic embed and differs from this block.
Otherwise fall through to setState( { error: false, fetching: true } )
and the fetch.  The own patterns are an array here (the settings
default is the empty list), so the authored !patterns test is never
taken. -/
def doServerSideRenderPre (registry : List (String × List Pattern))
    (ownPatterns : List Pattern) (blockName url : String) : PreFetchOutcome :=
  if !matchesPatterns url ownPatterns then
    let matchingBlock := findBlock registry url
    if blockName ≠ "core-embed/wordpress" ∧ matchingBlock ≠ "core/embed" then
      if blockName ≠ matchingBlock then
        PreFetchOutcome.replace matchingBlock url
      else
        PreFetchOutcome.fetch
    else
      PreFetchOutcome.fetch
  else
    PreFetchOutcome.fetch

/-! ### Component state, attributes, render and save -/

/-- The local state record of the edit component (source lines 97-103,
with the providerNameSlug key the continuations merge in). -/
structure EmbedState where
  html : String
  type : String
  error : Bool
  fetching : Bool
  providerNameSlug : String
deriving DecidableEq

/-- The setState( { error: false, fetching: true } ) performed on
entering the fetch (source line 150). -/
def startFetchState (st : EmbedState) : EmbedState :=
  { st with error := false, fetching := true }

/-- The effect of one emitted setState merge on the local state;
attribute writes and replacement do not touch this record. -/
def applyEffect (st : EmbedState) : Effect → EmbedState
  | .setStateHtml h t s => { st with html := h, type := t, providerNameSlug := s }
  | .setAttrs _ _ => st
  | .setFetchingFalse => { st with fetching := false }
  | .setStateFailure => { st with fetching := false, error := true }
  | .replaceBlock _ _ => st

def applyEffects (st : EmbedState) (effects : List Effect) : EmbedState :=
  effects.foldl applyEffect st

/-- The type and providerNameSlug pairs written by setAttributes among
a list of effects. -/
def attrWrites (effects : List Effect) : List (String × String) :=
  effects.filterMap fun e =>
    match e with
    | .setAttrs t s => some (t, s)
    | _ => none

-- These embeds do not work in sandboxes (source line 28).
def HOSTS_NO_PREVIEWS : List String := ["facebook.com"]

/-- Modelled from the external node url package: parse( url ).host for
the absolute URLs reaching the render path is the text between the
scheme separator and the next slash, question mark or hash,
lower-cased. -/
def parseHost (url : String) : String :=
  let rec afterScheme : List Char → List Char
    | '/' :: '/' :: rest => rest
    | _ :: rest => afterScheme rest
    | [] => []
  String.mk (((afterScheme url.data).takeWhile
    fun c => !(c = '/' || c = '?' || c = '#')).map lowerChar)

/-- host.replace( /^www\./, '' ) (source line 241). -/
def stripWww (host : String) : String :=
  if leadsWith "www.".data host.data then String.mk (host.data.drop 4) else host

/-- The body of the figure produced by the render content path: the
link-only placeholder for denylisted hosts, raw trusted markup for
wp-embed content, or the sandboxed container. -/
inductive FigureBody where
  | noPreview (url : String)
  | rawHtml (html : String)
  | sandboxedHtml (html : String)
deriving DecidableEq

/-- The three shapes returned by render. -/
inductive View where
  | loading
  | form (showError : Bool)
  | figure (body : FigureBody) (showCaption : Bool)
deriving DecidableEq

/-- render (source lines 190-279) as a pure function of the local
state and the attributes it reads: fetching shows the loading
indicator; an empty html shows the URL form whose error message is
governed by the error flag; otherwise the figure, whose body is the
placeholder when the www-stripped host is denylisted, raw markup when
the type is wp-embed, and the sandbox otherwise. -/
def render (st : EmbedState) (url : Option String) (caption : List String)
    (isSelected : Bool) : View :=
  if st.fetching then View.loading
  else if st.html = "" then View.form st.error
  else
    let host := parseHost (url.getD "")
    let cannotPreview := HOSTS_NO_PREVIEWS.contains (stripWww host)
    let embedWrapper :=
      if st.type = "wp-embed" then FigureBody.rawHtml st.html
      else FigureBody.sandboxedHtml st.html
    View.figure (if cannotPreview then FigureBody.noPreview (url.getD "") else embedWrapper)
      (caption.length > 0 || isSelected)

/-- The persisted attribute record (source lines 63-82): every field
optional, the caption children defaulting to the empty list. -/
structure EmbedAttributes where
  url : Option String
  caption : List String
  align : Option String
  type : Option String
  providerNameSlug : Option String

/-- The serialized figure: its class list, its text content and the
optional figcaption children. -/
structure SavedEmbed where
  classList : List String
  content : String
  figcaption : Option (List String)
deriving DecidableEq

/-- save (source lines 282-301): nothing for a falsy url; otherwise a
figure classed by classnames( 'wp-block-embed', ... ) with the url on
its own line and a figcaption exactly for a non-empty caption. -/
def save (attributes : EmbedAttributes) : Option SavedEmbed :=
  if truthyStr attributes.url then
    some {
      classList := ["wp-block-embed"] ++
        (if truthyStr attributes.align then ["align" ++ attributes.align.getD ""] else []) ++
        (if truthyStr attributes.type then ["is-type-" ++ attributes.type.getD ""] else []) ++
        (if truthyStr attributes.providerNameSlug then
          ["is-provider-" ++ attributes.providerNameSlug.getD ""] else []),
      content := "\n" ++ attributes.url.getD "" ++ "\n",
      figcaption :=
        if attributes.caption.length > 0 then some attributes.caption else none }
  else none

/-! ### Helper lemmas -/

theorem data_append_eq (s t : String) : (s ++ t).data = s.data ++ t.data := rfl

theorem str_ne_of_nth_ne (s t : String) (n : Nat) (c d : Char)
    (hc : s.data.get? n = some c) (hd : t.data.get? n = some d) (hcd : c ≠ d) :
    s ≠ t := by
  intro e
  rw [e, hd] at hc
  injection hc with h
  exact hcd h.symm

theorem align_ne_isType (t : String) : ("align" : String) ≠ "is-type-" ++ t :=
  str_ne_of_nth_ne _ _ 0 'a' 'i' rfl (by rw [data_append_eq]; rfl) (by decide)

theorem align_ne_isProvider (t : String) : ("align" : String) ≠ "is-provider-" ++ t :=
  str_ne_of_nth_ne _ _ 0 'a' 'i' rfl (by rw [data_append_eq]; rfl) (by decide)

theorem isType_ne_align (t : String) : ("is-type-" : String) ≠ "align" ++ t :=
  str_ne_of_nth_ne _ _ 0 'i' 'a' rfl (by rw [data_append_eq]; rfl) (by decide)

theorem isType_ne_isProvider (t : String) : ("is-type-" : String) ≠ "is-provider-" ++ t :=
  str_ne_of_nth_ne _ _ 3 't' 'p' rfl (by rw [data_append_eq]; rfl) (by decide)

theorem isProvider_ne_align (t : String) : ("is-provider-" : String) ≠ "align" ++ t :=
  str_ne_of_nth_ne _ _ 0 'i' 'a' rfl (by rw [data_append_eq]; rfl) (by decide)

theorem isProvider_ne_isType (t : String) : ("is-provider-" : String) ≠ "is-type-" ++ t :=
  str_ne_of_nth_ne _ _ 3 'p' 't' rfl (by rw [data_append_eq]; rfl) (by decide)

theorem getD_empty_of_not_truthy (o : Option String) (h : truthyStr o = false) :
    o.getD "" = "" := by
  cases o with
  | none => rfl
  | some s => simp [truthyStr] at h; simp [h]

theorem truthy_of_containsMarker (h : Option String) (hm : containsMarker h = true) :
    truthyStr h = true := by
  cases h with
  | none => exact absurd hm (by decide)
  | some s =>
    by_cases he : s = ""
    · subst he; exact absurd hm (by decide)
    · simp [truthyStr, he]

theorem not_containsMarker_of_not_truthy (h : Option String)
    (ht : truthyStr h = false) : containsMarker h = false := by
  cases hc : containsMarker h
  · rfl
  · rw [truthy_of_containsMarker h hc] at ht; exact absurd ht (by decide)

/-- Whatever findBlock returns is the default or a matching registry entry. -/
theorem findBlock_default_or_mem (registry : List (String × List Pattern)) (url : String) :
    findBlock registry url = "core/embed" ∨
    ∃ ps, (findBlock registry url, ps) ∈ registry ∧ matchesPatterns url ps = true := by
  induction registry with
  | nil => exact Or.inl rfl
  | cons e rest ih =>
    obtain ⟨n, ps⟩ := e
    by_cases h : matchesPatterns url ps = true
    · exact Or.inr ⟨ps, by simp [findBlock, h], h⟩
    · rw [show findBlock ((n, ps) :: rest) url = findBlock rest url by
        simp [findBlock, h]]
      rcases ih with h1 | ⟨qs, hmem, hq⟩
      · exact Or.inl h1
      · exact Or.inr ⟨qs, List.mem_cons_of_mem _ hmem, hq⟩

/-! ### The claims -/

/-- Claim C1: for every URL string the resolver scans the pattern
registry in fixed insertion order and returns the first identifier one
of whose patterns matches the URL; when no registered pattern matches
it returns the generic default identifier core/embed, so when a URL
matches the pattern sets of several identifiers the first-registered
identifier wins. -/
theorem C1_resolver_first_match_or_default (registry : List (String × List Pattern))
    (url : String) :
    ((∀ e ∈ registry, matchesPatterns url e.2 = false) →
      findBlock registry url = "core/embed") ∧
    (∀ pre entry post, registry = pre ++ entry :: post →
      (∀ e ∈ pre, matchesPatterns url e.2 = false) →
      matchesPatterns url entry.2 = true →
      findBlock registry url = entry.1) := by
  constructor
  · intro h
    induction registry with
    | nil => rfl
    | cons e rest ih =>
      obtain ⟨n, ps⟩ := e
      have h1 : matchesPatterns url ps = false := h (n, ps) (by simp)
      rw [show findBlock ((n, ps) :: rest) url = findBlock rest url by
        simp [findBlock, h1]]
      exact ih fun e he => h e (List.mem_cons_of_mem _ he)
  · intro pre entry post hreg hpre hmatch
    subst hreg
    induction pre with
    | nil =>
      obtain ⟨n, ps⟩ := entry
      simp only [List.nil_append, findBlock]
      simp [hmatch]
    | cons e rest ih =>
      obtain ⟨m, qs⟩ := e
      have h1 : matchesPatterns url qs = false := hpre (m, qs) (by simp)
      rw [show findBlock (((m, qs) :: rest) ++ entry :: post) url =
          findBlock (rest ++ entry :: post) url by simp [findBlock, h1]]
      exact ih fun e he => hpre e (List.mem_cons_of_mem _ he)

/-- Claim C1 witness: a URL matching no registered pattern resolves to
the generic default identifier. -/
theorem C1_witness : findBlock blockPatterns "not a url" = "core/embed" :=
  (C1_resolver_first_match_or_default blockPatterns "not a url").1 (by decide)

/-- Claim C2: a definition registered with zero patterns contributes no
registry entry, every registry entry has at least one pattern, the
empty pattern list matches no URL, and the scan can return an
identifier other than the default only on the strength of a non-empty
matching pattern list. -/
theorem C2_zero_patterns_never_registered (opts : List EmbedBlockOptions)
    (url blockName : String) :
    ((blockName, ([] : List Pattern)) ∉ registerBlocks opts) ∧
    (∀ e ∈ registerBlocks opts, e.2 ≠ []) ∧
    matchesPatterns url [] = false ∧
    (findBlock (registerBlocks opts) url = blockName →
      blockName = "core/embed" ∨
      ∃ ps, (blockName, ps) ∈ registerBlocks opts ∧ ps ≠ [] ∧
        matchesPatterns url ps = true) := by
  have hne : ∀ e ∈ registerBlocks opts, e.2 ≠ [] := by
    intro e he
    obtain ⟨o, -, ho⟩ := List.mem_filterMap.mp he
    by_cases hp : o.patterns.isEmpty = true
    · rw [if_pos hp] at ho; cases ho
    · rw [if_neg hp] at ho
      injection ho with h
      subst h
      simpa [List.isEmpty_iff] using hp
  refine ⟨fun hmem => hne _ hmem rfl, hne, rfl, fun hfb => ?_⟩
  rcases findBlock_default_or_mem (registerBlocks opts) url with h1 | ⟨ps, hmem, hq⟩
  · exact Or.inl (hfb ▸ h1)
  · rw [hfb] at hmem
    exact Or.inr ⟨ps, hmem, hne _ hmem, hq⟩

/-- Claim C2 witness: the WordPress definition (registered without
patterns) stores nothing in the registry, and an empty pattern list
matches no URL. -/
theorem C2_witness :
    ("core-embed/wordpress", ([] : List Pattern)) ∉
      registerBlocks (commonEmbeds ++ otherEmbeds) ∧
    matchesPatterns "https://twitter.com/a" [] = false :=
  ⟨(C2_zero_patterns_never_registered (commonEmbeds ++ otherEmbeds)
      "https://twitter.com/a" "core-embed/wordpress").1,
   (C2_zero_patterns_never_registered (commonEmbeds ++ otherEmbeds)
      "https://twitter.com/a" "core-embed/wordpress").2.2.1⟩

/-- Claim C3 counterexample: the claim states a replacement is emitted
if and only if the resolved identifier differs from the current one
AND the current block is not the generic fallback core/embed.  Here
the current block IS the generic fallback core/embed, so the claim
forbids a replacement, yet the code emits one: the source condition
excludes the WordPress variant as current block and the generic
fallback as resolved block, not the generic fallback as current
block. -/
theorem C3_counterexample :
    doServerSideRenderPre blockPatterns [] "core/embed" "https://twitter.com/a" =
      PreFetchOutcome.replace "core-embed/twitter" "https://twitter.com/a" := by
  decide

/-- Claim C3 as amended: on entering the fetching state the code emits
the replace-self effect, returning before the fetch and before any
state mutation, exactly when the URL fails the own patterns of the
block, the current block is not core-embed/wordpress, the resolved
identifier is not the generic core/embed and the resolved identifier
differs from the current one; in every other case it proceeds to the
fetch. -/
theorem C3_replace_condition_amended (registry : List (String × List Pattern))
    (ownPatterns : List Pattern) (blockName url : String) :
    (matchesPatterns url ownPatterns = false ∧ blockName ≠ "core-embed/wordpress" ∧
        findBlock registry url ≠ "core/embed" ∧ blockName ≠ findBlock registry url →
      doServerSideRenderPre registry ownPatterns blockName url =
        PreFetchOutcome.replace (findBlock registry url) url) ∧
    (¬(matchesPatterns url ownPatterns = false ∧ blockName ≠ "core-embed/wordpress" ∧
        findBlock registry url ≠ "core/embed" ∧ blockName ≠ findBlock registry url) →
      doServerSideRenderPre registry ownPatterns blockName url =
        PreFetchOutcome.fetch) := by
  constructor
  · rintro ⟨h1, h2, h3, h4⟩
    simp [doServerSideRenderPre, h1, h2, h3, h4]
  · intro hn
    by_cases h1 : matchesPatterns url ownPatterns
    · simp [doServerSideRenderPre, h1]
    · simp only [not_and_or, not_not] at hn
      have h1f : matchesPatterns url ownPatterns = false := by
        simpa using h1
      rcases hn with hc | hc | hc | hc
      · exact absurd h1f (by simp [hc])
      · simp [doServerSideRenderPre, h1f, hc]
      · simp [doServerSideRenderPre, h1f, hc]
      · by_cases h2 : blockName = "core-embed/wordpress"
        · simp [doServerSideRenderPre, h1f, h2]
        · simp [doServerSideRenderPre, h1f, h2, hc]

/-- Claim C3 witness for the amended statement: a non-generic block
whose URL resolves to a different specific block is replaced. -/
theorem C3_witness :
    doServerSideRenderPre blockPatterns [] "core-embed/youtube" "https://twitter.com/a" =
      PreFetchOutcome.replace "core-embed/twitter" "https://twitter.com/a" := by
  have h := (C3_replace_condition_amended blockPatterns [] "core-embed/youtube"
      "https://twitter.com/a").1 ⟨by decide, by decide, by decide, by decide⟩
  rw [show findBlock blockPatterns "https://twitter.com/a" = "core-embed/twitter"
    from by decide] at h
  exact h

/-- Claim C4 (code bug): the rejection continuation does not consult
the unmounting flag: with the flag set it still emits
setState( { fetching: false, error: true } ) (source lines 184-186),
while the success continuation on the same late response correctly
discards everything. -/
theorem C4_failure_after_unmount_mutates_state :
    failureContinuation true = [Effect.setStateFailure] ∧
    applyEffects ⟨"", "", false, true, ""⟩ (failureContinuation true) =
      ⟨"", "", true, false, ""⟩ ∧
    successContinuation true "core/embed" "https://e.com/x" "Embed"
      ⟨some "<b>h</b>", none, none, none, none, none⟩ = [] := by
  refine ⟨rfl, by decide, rfl⟩

/-- Claim C5 (code bug): with the provider_name field absent the
authored test takes the provider branch, lodash toLower turns the
undefined value into the empty string and the slug comes out empty
instead of being derived from the block title; the claimed defaulting
of an absent type to rich and the html-else-result payload choice do
hold. -/
theorem C5_absent_provider_name_empty_slug :
    successContinuation false "core-embed/youtube" "https://youtu.be/x" "YouTube"
      ⟨some "<b>h</b>", none, none, none, none, none⟩ =
      [Effect.setStateHtml "<b>h</b>" "rich" "", Effect.setAttrs "rich" "",
        Effect.setFetchingFalse] ∧
    providerSlug none "YouTube" = "" ∧
    kebabCase (lowerStr "YouTube") = "youtube" ∧
    providerSlug (some "") "YouTube" = "youtube" ∧
    responseHtml ⟨none, some "<i>r</i>", none, none, none, none⟩ = some "<i>r</i>" := by
  refine ⟨by decide, by decide, by decide, by decide, by decide⟩

/-- Claim C6: a success payload containing the WordPress-embed marker
forces the content type to wp-embed: a block that is not the WordPress
variant emits only the replace-with-core-embed/wordpress effect
carrying the url; the WordPress variant itself stores the payload
locally with type wp-embed. -/
theorem C6_wp_embed_marker (blockName url title : String) (obj : OEmbedResponse)
    (hm : containsMarker (responseHtml obj) = true) :
    (blockName ≠ "core-embed/wordpress" →
      successContinuation false blockName url title obj =
        [Effect.replaceBlock "core-embed/wordpress" url]) ∧
    (blockName = "core-embed/wordpress" →
      successContinuation false blockName url title obj =
        [Effect.setStateHtml ((responseHtml obj).getD "") "wp-embed"
            (providerSlug obj.provider_name title),
         Effect.setAttrs "wp-embed" (providerSlug obj.provider_name title),
         Effect.setFetchingFalse]) := by
  have ht := truthy_of_containsMarker _ hm
  constructor
  · intro hn
    simp [successContinuation, hm, hn]
  · intro hn
    subst hn
    simp [successContinuation, hm, tailEffects, ht]

/-- Claim C6 witness: a YouTube block receiving a marker payload is
replaced by the WordPress variant. -/
theorem C6_witness :
    successContinuation false "core-embed/youtube" "https://e.com/x" "YouTube"
      ⟨some "<div class=\"wp-embedded-content\" data-secret=\"a\"></div>",
        none, none, none, none, none⟩ =
      [Effect.replaceBlock "core-embed/wordpress" "https://e.com/x"] :=
  (C6_wp_embed_marker "core-embed/youtube" "https://e.com/x" "YouTube"
      ⟨some "<div class=\"wp-embedded-content\" data-secret=\"a\"></div>",
        none, none, none, none, none⟩ (by decide)).1 (by decide)

/-- Claim C7 counterexample: for a photo response with no payload the
attribute writes carry only the content type and the provider slug;
the synthesized markup is written to the local state only (the
persisted schema has no html field at all), refuting the claim that
the markup is written to both the local state and the block
attributes. -/
theorem C7_counterexample :
    attrWrites (successContinuation false "core-embed/flickr" "https://flic.kr/p" "Flickr"
        ⟨none, none, some "photo", some "Flickr", some "http://t/p.jpg", some "My Pic"⟩) =
      [("photo", "flickr")] ∧
    getPhotoHtml ⟨none, none, some "photo", some "Flickr", some "http://t/p.jpg",
        some "My Pic"⟩ ≠ "photo" ∧
    getPhotoHtml ⟨none, none, some "photo", some "Flickr", some "http://t/p.jpg",
        some "My Pic"⟩ ≠ "flickr" := by
  refine ⟨by decide, by decide, by decide⟩

/-- Claim C7 as amended: for a success response of type photo with
neither html nor result present, the continuation stores the
synthesized p-img fragment, built from the response thumbnail_url as
src and the response title as alt, in the local state together with
the type and the provider slug; the block attributes receive the type
and the provider slug only. -/
theorem C7_photo_synthesized_markup (blockName url title : String)
    (obj : OEmbedResponse) (h1 : obj.html = none) (h2 : obj.result = none)
    (htype : obj.type.getD "rich" = "photo") :
    successContinuation false blockName url title obj =
      [Effect.setStateHtml (getPhotoHtml obj) "photo"
          (providerSlug obj.provider_name title),
       Effect.setAttrs "photo" (providerSlug obj.provider_name title),
       Effect.setFetchingFalse] ∧
    getPhotoHtml obj =
      "<p><img src=\"" ++ obj.thumbnail_url.getD "" ++ "\" alt=\"" ++
        obj.title.getD "" ++ "\" width=\"100%\"/></p>" ∧
    attrWrites (successContinuation false blockName url title obj) =
      [("photo", providerSlug obj.provider_name title)] := by
  have hh : responseHtml obj = none := by
    simp [responseHtml, h1, h2, truthyStr]
  have ht : truthyStr (responseHtml obj) = false := by rw [hh]; rfl
  have hm : containsMarker (responseHtml obj) = false :=
    not_containsMarker_of_not_truthy _ ht
  refine ⟨?_, rfl, ?_⟩
  · simp [successContinuation, hm, tailEffects, ht, htype]
  · simp [successContinuation, hm, tailEffects, ht, htype, attrWrites]

/-- Claim C7 witness for the amended statement. -/
theorem C7_witness :
    successContinuation false "core-embed/flickr" "https://flic.kr/p" "Flickr"
      ⟨none, none, some "photo", some "Flickr", some "http://t/p.jpg", some "My Pic"⟩ =
      [Effect.setStateHtml
          "<p><img src=\"http://t/p.jpg\" alt=\"My Pic\" width=\"100%\"/></p>"
          "photo" "flickr",
       Effect.setAttrs "photo" "flickr", Effect.setFetchingFalse] := by
  have h := (C7_photo_synthesized_markup "core-embed/flickr" "https://flic.kr/p" "Flickr"
      ⟨none, none, some "photo", some "Flickr", some "http://t/p.jpg", some "My Pic"⟩
      rfl rfl rfl).1
  rw [h]
  decide

/-- Claim C10: a success response with neither html nor result and a
content type other than photo makes the continuation emit only the
clearing of the fetching flag: no error flag, no stored html or type,
no attribute write; applied to the state entered when the fetch
started, the instance is back at the input form with no error
shown. -/
theorem C10_no_html_only_clears_fetching (blockName url title : String)
    (obj : OEmbedResponse) (h1 : obj.html = none) (h2 : obj.result = none)
    (htype : obj.type.getD "rich" ≠ "photo") (st : EmbedState) (hst : st.html = "")
    (caption : List String) :
    successContinuation false blockName url title obj = [Effect.setFetchingFalse] ∧
    attrWrites (successContinuation false blockName url title obj) = [] ∧
    applyEffects (startFetchState st) (successContinuation false blockName url title obj) =
      { st with error := false, fetching := false } ∧
    render (applyEffects (startFetchState st)
        (successContinuation false blockName url title obj)) (some url) caption false =
      View.form false := by
  have hh : responseHtml obj = none := by
    simp [responseHtml, h1, h2, truthyStr]
  have ht : truthyStr (responseHtml obj) = false := by rw [hh]; rfl
  have hm : containsMarker (responseHtml obj) = false :=
    not_containsMarker_of_not_truthy _ ht
  have he : successContinuation false blockName url title obj =
      [Effect.setFetchingFalse] := by
    simp [successContinuation, hm, tailEffects, ht, htype]
  refine ⟨he, by rw [he]; rfl, by rw [he]; rfl, ?_⟩
  rw [he]
  simp [applyEffects, applyEffect, startFetchState, render, hst]

/-- Claim C10 witness: an empty response on a fresh generic embed only
ends the fetching state. -/
theorem C10_witness :
    successContinuation false "core/embed" "https://e.com/x" "Embed"
      ⟨none, none, none, none, none, none⟩ = [Effect.setFetchingFalse] :=
  (C10_no_html_only_clears_fetching "core/embed" "https://e.com/x" "Embed"
    ⟨none, none, none, none, none, none⟩ rfl rfl (by decide)
    ⟨"", "", false, false, ""⟩ rfl []).1

/-- Claim C8: saving with a falsy url persists nothing; otherwise the
figure carries the class wp-block-embed, the align, is-type- and
is-provider- classes exactly when the respective attribute is set, the
url on its own line surrounded by newlines, and a figcaption exactly
when the caption is non-empty. -/
theorem C8_save_contract (attributes : EmbedAttributes) :
    (truthyStr attributes.url = false → save attributes = none) ∧
    (truthyStr attributes.url = true →
      ∃ out, save attributes = some out ∧
        "wp-block-embed" ∈ out.classList ∧
        (("align" ++ attributes.align.getD "") ∈ out.classList ↔
          truthyStr attributes.align = true) ∧
        (("is-type-" ++ attributes.type.getD "") ∈ out.classList ↔
          truthyStr attributes.type = true) ∧
        (("is-provider-" ++ attributes.providerNameSlug.getD "") ∈ out.classList ↔
          truthyStr attributes.providerNameSlug = true) ∧
        out.content = "\n" ++ attributes.url.getD "" ++ "\n" ∧
        (out.figcaption.isSome ↔ attributes.caption ≠ [])) := by
  constructor
  · intro h
    simp [save, h]
  · intro h
    refine ⟨_, by rw [save, if_pos h], ?_, ?_, ?_, ?_, rfl, ?_⟩
    · cases ha : truthyStr attributes.align <;>
        cases htp : truthyStr attributes.type <;>
        cases hp : truthyStr attributes.providerNameSlug <;>
        simp [ha, htp, hp]
    · cases ha : truthyStr attributes.align <;>
        cases htp : truthyStr attributes.type <;>
        cases hp : truthyStr attributes.providerNameSlug <;>
        simp [ha, htp, hp, getD_empty_of_not_truthy, align_ne_isType,
          align_ne_isProvider]
    · cases ha : truthyStr attributes.align <;>
        cases htp : truthyStr attributes.type <;>
        cases hp : truthyStr attributes.providerNameSlug <;>
        simp [ha, htp, hp, getD_empty_of_not_truthy, isType_ne_align,
          isType_ne_isProvider]
    · cases ha : truthyStr attributes.align <;>
        cases htp : truthyStr attributes.type <;>
        cases hp : truthyStr attributes.providerNameSlug <;>
        simp [ha, htp, hp, getD_empty_of_not_truthy, isProvider_ne_align,
          isProvider_ne_isType]
    · cases hc : attributes.caption <;> simp

/-- Claim C8 witness: an attribute record without a url is not
persisted. -/
theorem C8_witness :
    save ⟨none, ["cap"], some "wide", some "video", none⟩ = none :=
  (C8_save_contract ⟨none, ["cap"], some "wide", some "video", none⟩).1 (by decide)

/-- Claim C9: render is a pure function of state and attributes:
fetching shows the loading indicator; otherwise an empty html shows
the URL input form whose error message appears exactly when the error
flag is set; otherwise the content figure, whose body is the link-only
placeholder when the www-stripped host of the url is on the no-preview
denylist, the raw trusted markup when the content type is wp-embed,
and the sandboxed container otherwise. -/
theorem C9_render_contract (st : EmbedState) (url : Option String)
    (caption : List String) (isSelected : Bool) :
    (st.fetching = true → render st url caption isSelected = View.loading) ∧
    (st.fetching = false → st.html = "" →
      render st url caption isSelected = View.form st.error) ∧
    (st.fetching = false → st.html ≠ "" →
      HOSTS_NO_PREVIEWS.contains (stripWww (parseHost (url.getD ""))) = true →
      render st url caption isSelected =
        View.figure (FigureBody.noPreview (url.getD ""))
          (caption.length > 0 || isSelected)) ∧
    (st.fetching = false → st.html ≠ "" →
      HOSTS_NO_PREVIEWS.contains (stripWww (parseHost (url.getD ""))) = false →
      st.type = "wp-embed" →
      render st url caption isSelected =
        View.figure (FigureBody.rawHtml st.html) (caption.length > 0 || isSelected)) ∧
    (st.fetching = false → st.html ≠ "" →
      HOSTS_NO_PREVIEWS.contains (stripWww (parseHost (url.getD ""))) = false →
      st.type ≠ "wp-embed" →
      render st url caption isSelected =
        View.figure (FigureBody.sandboxedHtml st.html)
          (caption.length > 0 || isSelected)) := by
  refine ⟨?_, ?_, ?_, ?_, ?_⟩
  · intro hf
    simp [render, hf]
  · intro hf hh
    simp [render, hf, hh]
  · intro hf hh hd
    have hd2 : stripWww (parseHost (url.getD "")) ∈ HOSTS_NO_PREVIEWS := by
      simpa using hd
    simp [render, hf, hh, hd2]
  · intro hf hh hd htp
    have hd2 : stripWww (parseHost (url.getD "")) ∉ HOSTS_NO_PREVIEWS := by
      simpa using hd
    simp [render, hf, hh, hd2, htp]
  · intro hf hh hd htp
    have hd2 : stripWww (parseHost (url.getD "")) ∉ HOSTS_NO_PREVIEWS := by
      simpa using hd
    simp [render, hf, hh, hd2, htp]

/-- Claim C9 witness: a facebook.com url with stored html renders the
link-only placeholder. -/
theorem C9_witness :
    render ⟨"<b>h</b>", "video", false, false, ""⟩
      (some "https://www.facebook.com/x") [] false =
      View.figure (FigureBody.noPreview "https://www.facebook.com/x") false :=
  ((C9_render_contract ⟨"<b>h</b>", "video", false, false, ""⟩
      (some "https://www.facebook.com/x") [] false).2.2.1) rfl (by decide) (by decide)

end Embed
